import Mathlib

/-!
Shallow embedding of the RFQ tuner control core (`src/app/rfq_tuner.py`)
and its TCP motor adapter (`src/adapters/rfq_tuner.py`).

Reads from the coefficient source are modelled as an oracle
`rds : ℕ → Option ℚ`, consumed in program order; `none` models a read
that raises. Actuator moves are recorded as the list of relative
displacements (millimetres) issued, in order. Wall-clock sleeps are not
observable in the embedding. An exception that escapes a function is
modelled by a `none` result (or a raised flag) carrying the moves issued
before the raise, since the Python code performs those side effects
before the exception propagates.
-/

set_option maxRecDepth 100000

namespace RFQTuner

/-- Embeds the `TunerState` enumeration (IDLE, SEEKING, TRACKING). -/
inductive TunerState
  | idle
  | seeking
  | tracking
deriving DecidableEq, Repr

/-- Embeds the configuration attributes of class `RFQ`
(constructor defaults: coef_min 0.01, coef_max 0.05, test_step 0.1,
tracking_step 0.1, settling_time 0.2). `settling_time` only feeds
`time.sleep` and has no observable effect in the embedding. -/
structure RFQConfig where
  coef_min : ℚ
  coef_max : ℚ
  test_step : ℚ
  tracking_step : ℚ
  settling_time : ℚ
deriving DecidableEq, Repr

/-- Embeds `RFQ.find_direction`. Reads `initial_coef` at index `i`,
`coef_positive` at `i+1` and, when the positive probe fails,
`coef_negative` at `i+2`. Returns (direction result, moves issued, next
unread index); a `none` direction models a read that raised, with the
moves issued before the raise recorded. -/
def find_direction (cfg : RFQConfig) (rds : ℕ → Option ℚ) (i : ℕ) :
    Option ℤ × List ℚ × ℕ :=
  match rds i with
  | none => (none, [], i)
  | some initial =>
    match rds (i + 1) with
    | none => (none, [cfg.test_step], i + 1)
    | some coefPositive =>
      if coefPositive < initial then (some 1, [cfg.test_step], i + 2)
      else
        match rds (i + 2) with
        | none => (none, [cfg.test_step, -2 * cfg.test_step], i + 2)
        | some coefNegative =>
          if coefNegative < initial then
            (some (-1), [cfg.test_step, -2 * cfg.test_step], i + 3)
          else
            (some 0, [cfg.test_step, -2 * cfg.test_step], i + 3)

/-- Embeds the `while steps_taken < max_steps` loop of
`RFQ.track_to_target`, with `fuel = max_steps - steps_taken`. Each
iteration first moves by `direction * tracking_step`, then reads
`current_coef`. Returns (result, moves issued, loop readings taken,
next unread index): `some true` is convergence (`current_coef <=
coef_min`), `some false` is the wrong-direction back-off or step
exhaustion, `none` is a read that raised out of the loop. -/
def trackAux (cfg : RFQConfig) (dir : ℤ) (rds : ℕ → Option ℚ) :
    ℚ → ℕ → ℕ → Option Bool × List ℚ × List ℚ × ℕ
  | _, i, 0 => (some false, [], [], i)
  | prev, i, fuel + 1 =>
    match rds i with
    | none => (none, [(dir : ℚ) * cfg.tracking_step], [], i)
    | some cur =>
      if cur ≤ cfg.coef_min then
        (some true, [(dir : ℚ) * cfg.tracking_step], [cur], i + 1)
      else if cur > prev * (105 / 100) then
        (some false,
          [(dir : ℚ) * cfg.tracking_step, -((dir : ℚ) * cfg.tracking_step)],
          [cur], i + 1)
      else
        let t := trackAux cfg dir rds cur (i + 1) fuel
        (t.1, (dir : ℚ) * cfg.tracking_step :: t.2.1, cur :: t.2.2.1, t.2.2.2)

/-- Embeds `RFQ.track_to_target`: reads `previous_coef` at index `i`,
then runs the loop with the hardcoded `max_steps = 100`. -/
def track_to_target (cfg : RFQConfig) (dir : ℤ) (rds : ℕ → Option ℚ)
    (i : ℕ) : Option Bool × List ℚ × List ℚ × ℕ :=
  match rds i with
  | none => (none, [], [], i)
  | some prev => trackAux cfg dir rds prev (i + 1) 100

/-- Embeds `RFQ.run_once`. Returns (final state, moves issued, raised
flag). The raised flag is true when an exception escaped `run_once`; the
state component is the value of `self.state` at that moment, since the
Python assignments to `self.state` happen before the raising call. -/
def run_once (cfg : RFQConfig) (s : TunerState) (rds : ℕ → Option ℚ) :
    TunerState × List ℚ × Bool :=
  match rds 0 with
  | none => (s, [], true)
  | some c =>
    if cfg.coef_min ≤ c ∧ c ≤ cfg.coef_max then (.idle, [], false)
    else if c > cfg.coef_max then
      let f := find_direction cfg rds 1
      match f.1 with
      | none => (.seeking, f.2.1, true)
      | some d =>
        if d = 0 then (.idle, f.2.1, false)
        else
          let t := track_to_target cfg d rds f.2.2
          match t.1 with
          | none => (.tracking, f.2.1 ++ t.2.1, true)
          | some _ => (.tracking, f.2.1 ++ t.2.1, false)
    else (s, [], false)

/-- Embeds `RFQ.run_continuous` over `n` scheduled cycles; cycle `j`
draws its reads from the sub-oracle `rds j`. The `except Exception`
handler logs and re-raises, so a raised cycle ends the loop with the
raised flag set and later cycles never run. -/
def run_continuous (cfg : RFQConfig) :
    ℕ → TunerState → (ℕ → ℕ → Option ℚ) → TunerState × List ℚ × Bool
  | 0, s, _ => (s, [], false)
  | n + 1, s, rds =>
    let o := run_once cfg s (rds 0)
    if o.2.2 then o
    else
      let rest := run_continuous cfg n o.1 (fun j => rds (j + 1))
      (rest.1, o.2.1 ++ rest.2.1, rest.2.2)

/-- Outcome of one TCP exchange in `TunerMotorAdapter._send_tcp_command`:
either the peer answered with a response string, or some socket
operation raised (connect error, timeout, no acknowledgment). -/
inductive Exchange
  | ok (resp : String)
  | err
deriving DecidableEq

/-- The dynamic type of the `command` argument actually passed to
`_send_tcp_command`. The signature annotates `command: str`, but
`move_relative` passes a dict, on which `command.encode` raises
AttributeError inside the `try` block. -/
inductive Cmd
  | str (s : String)
  | dict
deriving DecidableEq

/-- Embeds `TunerMotorAdapter._send_tcp_command`: every exception inside
the `try` is caught and logged, and the function falls through to
`return None`; a non-empty response is returned decoded, an empty one
falls through to `return None` as well. A dict command raises on
`.encode` before any socket traffic, so it always yields `none`. -/
def send_tcp_command (net : Exchange) : Cmd → Option String
  | .dict => none
  | .str _ =>
    match net with
    | .ok r => if r = "" then none else some r
    | .err => none

/-- Embeds the fixed axis list of `TunerMotorAdapter.move_relative`. -/
def motors_indexes : List String := ["A", "B", "C", "D", "E", "F", "G", "H"]

/-- Embeds `TunerMotorAdapter.move_relative`: one command per axis, each
built as a dict and sent through `_send_tcp_command` with the result
discarded; the function returns `None` (here `Unit`). The second
component records the per-axis results of `_send_tcp_command`, which the
Python code computes and throws away. -/
def move_relative (net : String → Exchange) (_distance_mm : ℚ) :
    Unit × List (Option String) :=
  ((), motors_indexes.map fun a => send_tcp_command (net a) .dict)

/-! Concrete configurations and read oracles used by witnesses and
counterexamples. `cfgW` is the constructor-default configuration. -/

def cfgW : RFQConfig := ⟨1/100, 1/20, 1/10, 1/10, 1/5⟩

/-- Cycle reading 0.08 (out of band), probe reads 0.08 then 0.03
(positive direction found), tracking reads 0.03 then 0.009 (converges
on the first tracking step). -/
def rdsW1 : ℕ → Option ℚ := fun i =>
  if i ≤ 1 then some (2/25)
  else if i = 2 then some (3/100)
  else if i = 3 then some (3/100)
  else some (9/1000)

/-- Probe readings 0.08, 0.03, 0.10: positive probe succeeds. -/
def rdsW7 : ℕ → Option ℚ := fun i =>
  if i = 0 then some (2/25) else if i = 1 then some (3/100) else some (1/10)

/-- Probe readings 0.08, 0.09, 0.10: neither probe improves. -/
def rdsW9 : ℕ → Option ℚ := fun i =>
  if i = 0 then some (2/25) else if i = 1 then some (9/100) else some (1/10)

/-- Constant reading 0.005, strictly below `cfgW.coef_min`. -/
def rdsLow : ℕ → Option ℚ := fun _ => some (1/200)

/-- Every cycle reads 0.04, inside the band [0.01, 0.05]. -/
def rdsIn : ℕ → ℕ → Option ℚ := fun _ _ => some (1/25)

/-- Cycle 0 read raises; every later cycle would read 0.04 (in band). -/
def rdsC3 : ℕ → ℕ → Option ℚ := fun j _ =>
  if j = 0 then none else some (1/25)

/-- 99 steady loop readings of 1, then a reading of 2 on the 100th
loop iteration, triggering the wrong-direction back-off on the last
permitted step. -/
def rdsC5 : ℕ → Option ℚ := fun i => if i = 100 then some 2 else some 1

/-- Configuration with coef_min = 0.001 so the rdsC5 run never
converges. -/
def cfgC5 : RFQConfig := ⟨1/1000, 1/100, 1/10, 1/10, 1/5⟩

/-- Tracking prelude reading 0.004, then a loop reading 0.005 that is
both below coef_min = 0.01 and above 0.004 * 1.05 = 0.0042. -/
def rdsC6 : ℕ → Option ℚ := fun i =>
  if i = 0 then some (1/250) else some (1/200)

/-- Loop reading 0.1 after a previous reading 0.04: overshoot beyond
noise tolerance and above coef_min. -/
def rdsOver : ℕ → Option ℚ := fun i =>
  if i = 0 then some (1/25) else some (1/10)

/-! Helper lemmas shared by the claim theorems. -/

/-- A reading inside [coef_min, coef_max] makes `run_once` return with
state IDLE, no moves and no exception, from any starting state. -/
theorem run_once_in_band (cfg : RFQConfig) (s : TunerState)
    (rds : ℕ → Option ℚ) (c : ℚ) (h0 : rds 0 = some c)
    (h1 : cfg.coef_min ≤ c) (h2 : c ≤ cfg.coef_max) :
    run_once cfg s rds = (.idle, [], false) := by
  simp [run_once, h0, h1, h2]

/-- Loop invariants of `trackAux`: the move list holds at most
`fuel + 1` entries (the possible back-off accounts for the extra one);
the loop converges exactly when one of the readings it took is at most
`coef_min`; and on convergence the move count equals the reading count,
so no move follows the one that produced the converging reading. -/
theorem trackAux_spec (cfg : RFQConfig) (dir : ℤ) (rds : ℕ → Option ℚ) :
    ∀ (fuel : ℕ) (prev : ℚ) (i : ℕ),
      (trackAux cfg dir rds prev i fuel).2.1.length ≤ fuel + 1 ∧
      ((trackAux cfg dir rds prev i fuel).1 = some true ↔
        ∃ r ∈ (trackAux cfg dir rds prev i fuel).2.2.1, r ≤ cfg.coef_min) ∧
      ((trackAux cfg dir rds prev i fuel).1 = some true →
        (trackAux cfg dir rds prev i fuel).2.1.length =
          (trackAux cfg dir rds prev i fuel).2.2.1.length) := by
  intro fuel
  induction fuel with
  | zero => intro prev i; simp [trackAux]
  | succ n ih =>
    intro prev i
    rcases hr : rds i with _ | cur
    · simp [trackAux, hr]
    · by_cases h1 : cur ≤ cfg.coef_min
      · simp [trackAux, hr, h1]
      · by_cases h2 : cur > prev * (105 / 100)
        · simp [trackAux, hr, h1, h2]
        · obtain ⟨ihl, ihi, ihe⟩ := ih cur (i + 1)
          refine ⟨?_, ?_, ?_⟩
          · simp [trackAux, hr, h1, h2]
            omega
          · simp [trackAux, hr, h1, h2, ihi]
          · simp [trackAux, hr, h1, h2]
            intro ht
            simp [ihe ht]

/-- C2 (amended): when the reading at the start of a cycle is strictly
below coef_min, `run_once` issues no actuator move, but it leaves the
controller state unchanged rather than transitioning to Idle: neither
the in-band branch nor the above-band branch fires, and the function
falls through without touching `self.state`. -/
theorem C2_below_min_no_move_state_unchanged (cfg : RFQConfig)
    (s : TunerState) (rds : ℕ → Option ℚ) (c : ℚ) (h0 : rds 0 = some c)
    (hlt : c < cfg.coef_min) (hcm : cfg.coef_min ≤ cfg.coef_max) :
    run_once cfg s rds = (s, [], false) := by
  have h1 : ¬ (cfg.coef_min ≤ c ∧ c ≤ cfg.coef_max) := by
    rintro ⟨ha, _⟩
    exact absurd hlt (not_lt.2 ha)
  have h2 : ¬ c > cfg.coef_max := not_lt.2 (le_of_lt (lt_of_lt_of_le hlt hcm))
  simp [run_once, h0, h1, h2]

/-- C2 witness: with the default configuration, a reading of 0.005 from
state Tracking produces no move and no state change. -/
theorem C2_witness : run_once cfgW .tracking rdsLow = (.tracking, [], false) :=
  C2_below_min_no_move_state_unchanged cfgW .tracking rdsLow (1/200) rfl
    (by with_unfolding_all decide) (by with_unfolding_all decide)

/-- C2 counterexample: a below-band reading of 0.005 in state Tracking
leaves the state at Tracking, not Idle, refuting the claimed transition
to Idle. -/
theorem C2_counterexample :
    run_once cfgW .tracking rdsLow = (.tracking, [], false) ∧
    TunerState.tracking ≠ TunerState.idle ∧ (1/200 : ℚ) < cfgW.coef_min := by
  refine ⟨by with_unfolding_all decide, by with_unfolding_all decide,
    by with_unfolding_all decide⟩

/-- C3 (amended): when the read at the start of a cycle raises, that
`run_once` performs no actuator move and leaves the state unchanged
(the exception propagates before any actuation), but `run_continuous`
does not retry on the next scheduled cycle: its exception handler logs
and re-raises, so the loop halts at that cycle. -/
theorem C3_read_failure_aborts_and_halts (cfg : RFQConfig) (s : TunerState)
    (rds : ℕ → ℕ → Option ℚ) (n : ℕ) (h : rds 0 0 = none) :
    run_once cfg s (rds 0) = (s, [], true) ∧
    run_continuous cfg (n + 1) s rds = (s, [], true) := by
  have h1 : run_once cfg s (rds 0) = (s, [], true) := by simp [run_once, h]
  exact ⟨h1, by simp [run_continuous, h1]⟩

/-- C3 witness: with the default configuration, a failing first read in
cycle 0 aborts without moving and halts the two-cycle loop. -/
theorem C3_witness :
    run_once cfgW .idle (rdsC3 0) = (.idle, [], true) ∧
    run_continuous cfgW 2 .idle rdsC3 = (.idle, [], true) :=
  C3_read_failure_aborts_and_halts cfgW .idle rdsC3 1 rfl

/-- C3 counterexample: cycle 0 fails its read, and although cycle 1
alone would complete normally (its reading 0.04 is in band), the loop
result shows the raised flag with no trace of cycle 1 ever running: the
loop halted instead of retrying next cycle. -/
theorem C3_counterexample :
    run_continuous cfgW 2 .idle rdsC3 = (.idle, [], true) ∧
    run_once cfgW .idle (rdsC3 1) = (.idle, [], false) := by
  refine ⟨by with_unfolding_all decide, by with_unfolding_all decide⟩

/-- C4: the adapter never surfaces a move failure. Whatever the
per-axis transport outcomes are, `move_relative` returns the same value
(Python `None`), and every internal `_send_tcp_command` call yields
`None`: exceptions are swallowed inside `_send_tcp_command`, and the
dict command raises on `.encode` before any traffic anyway. The caller
therefore cannot distinguish a failed move from a successful one. -/
theorem C4_failure_not_surfaced (net net2 : String → Exchange) (d d2 : ℚ) :
    move_relative net d = ((), List.replicate 8 none) ∧
    move_relative net d = move_relative net2 d2 := by
  exact ⟨rfl, rfl⟩

/-- C7: `find_direction` returns positive exactly when the reading taken
after the +test_step move is strictly below the initial reading, and
negative exactly when the positive probe failed and the reading taken
after the net -test_step displacement is strictly below the initial
reading. -/
theorem C7_find_direction_characterisation (cfg : RFQConfig)
    (rds : ℕ → Option ℚ) (i : ℕ) (r0 r1 r2 : ℚ) (h0 : rds i = some r0)
    (h1 : rds (i + 1) = some r1) (h2 : rds (i + 2) = some r2) :
    ((find_direction cfg rds i).1 = some 1 ↔ r1 < r0) ∧
    ((find_direction cfg rds i).1 = some (-1) ↔ ¬ r1 < r0 ∧ r2 < r0) := by
  by_cases hp : r1 < r0
  · simp [find_direction, h0, h1, h2, hp]
  · by_cases hn : r2 < r0 <;> simp [find_direction, h0, h1, h2, hp, hn]

/-- C7 witness: readings 0.08, 0.03, 0.10 give the positive direction,
matching the characterisation. -/
theorem C7_witness :
    ((find_direction cfgW rdsW7 0).1 = some 1 ↔ (3/100 : ℚ) < 2/25) ∧
    ((find_direction cfgW rdsW7 0).1 = some (-1) ↔
      ¬ (3/100 : ℚ) < 2/25 ∧ (1/10 : ℚ) < 2/25) :=
  C7_find_direction_characterisation cfgW rdsW7 0 (2/25) (3/100) (1/10)
    rfl rfl rfl

/-- C9: whenever `find_direction` returns undetermined (0), its move
list is exactly [+test_step, -2*test_step]: at most 3 moves, a net
displacement of -test_step from the original position, and no restoring
move back to the origin. -/
theorem C9_undetermined_net_displacement (cfg : RFQConfig)
    (rds : ℕ → Option ℚ) (i : ℕ) (h : (find_direction cfg rds i).1 = some 0) :
    (find_direction cfg rds i).2.1 = [cfg.test_step, -2 * cfg.test_step] ∧
    (find_direction cfg rds i).2.1.sum = -cfg.test_step ∧
    (find_direction cfg rds i).2.1.length ≤ 3 := by
  rcases h0 : rds i with _ | r0
  · simp [find_direction, h0] at h
  · rcases h1 : rds (i + 1) with _ | r1
    · simp [find_direction, h0, h1] at h
    · by_cases hp : r1 < r0
      · simp [find_direction, h0, h1, hp] at h
      · rcases h2 : rds (i + 2) with _ | r2
        · simp [find_direction, h0, h1, hp, h2] at h
        · by_cases hn : r2 < r0
          · simp [find_direction, h0, h1, hp, h2, hn] at h
          · refine ⟨by simp [find_direction, h0, h1, hp, h2, hn], ?_, ?_⟩
            · simp [find_direction, h0, h1, hp, h2, hn]
              ring
            · simp [find_direction, h0, h1, hp, h2, hn]

/-- C9 witness: readings 0.08, 0.09, 0.10 give undetermined with moves
[+0.1, -0.2], net -0.1 and at most 3 moves. -/
theorem C9_witness :
    (find_direction cfgW rdsW9 0).2.1 = [cfgW.test_step, -2 * cfgW.test_step] ∧
    (find_direction cfgW rdsW9 0).2.1.sum = -cfgW.test_step ∧
    (find_direction cfgW rdsW9 0).2.1.length ≤ 3 :=
  C9_undetermined_net_displacement cfgW rdsW9 0 (by with_unfolding_all decide)

/-- C10: when the reading taken on a tracking step satisfies both
stopping conditions at once (at most coef_min and above
previous * 1.05), the convergence check fires first: the loop returns
converged with only the forward move of that step and no corrective
back-off. -/
theorem C10_convergence_precedence (cfg : RFQConfig) (dir : ℤ)
    (rds : ℕ → Option ℚ) (prev cur : ℚ) (i fuel : ℕ)
    (hr : rds i = some cur) (hmin : cur ≤ cfg.coef_min)
    (_hover : cur > prev * (105 / 100)) :
    trackAux cfg dir rds prev i (fuel + 1) =
      (some true, [(dir : ℚ) * cfg.tracking_step], [cur], i + 1) := by
  simp [trackAux, hr, hmin]

/-- C10 witness: previous reading 0.004, loop reading 0.005: both below
coef_min = 0.01 and above 0.004 * 1.05, and the loop converges with a
single forward move. -/
theorem C10_witness :
    trackAux cfgW 1 rdsC6 (1/250) 1 100 =
      (some true, [((1 : ℤ) : ℚ) * cfgW.tracking_step], [1/200], 2) :=
  C10_convergence_precedence cfgW 1 rdsC6 (1/250) (1/200) 1 99 rfl
    (by with_unfolding_all decide) (by with_unfolding_all decide)

/-- C6 (amended): whenever the reading taken on a tracking step exceeds
previous * 1.05 and also exceeds coef_min, the loop issues the forward
move of that step followed by exactly one corrective back-off move of
-direction * tracking_step, issues no further moves, and returns
not-converged. -/
theorem C6_overshoot_single_backoff (cfg : RFQConfig) (dir : ℤ)
    (rds : ℕ → Option ℚ) (prev cur : ℚ) (i fuel : ℕ)
    (hr : rds i = some cur) (hmin : ¬ cur ≤ cfg.coef_min)
    (hover : cur > prev * (105 / 100)) :
    trackAux cfg dir rds prev i (fuel + 1) =
      (some false,
        [(dir : ℚ) * cfg.tracking_step, -((dir : ℚ) * cfg.tracking_step)],
        [cur], i + 1) := by
  simp [trackAux, hr, hmin, hover]

/-- C6 witness: previous reading 0.04, loop reading 0.1 (above both
coef_min and 0.04 * 1.05): one forward move, one back-off, result
not-converged. -/
theorem C6_witness :
    trackAux cfgW 1 rdsOver (1/25) 1 100 =
      (some false,
        [((1 : ℤ) : ℚ) * cfgW.tracking_step, -(((1 : ℤ) : ℚ) * cfgW.tracking_step)],
        [1/10], 2) :=
  C6_overshoot_single_backoff cfgW 1 rdsOver (1/25) (1/10) 1 99 rfl
    (by with_unfolding_all decide) (by with_unfolding_all decide)

/-- C6 counterexample: the loop reading 0.005 exceeds
previous * 1.05 = 0.0042, yet because it is also at most
coef_min = 0.01 the call converges with a single forward move and no
back-off, refuting the unconditional claim. -/
theorem C6_counterexample :
    (track_to_target cfgW 1 rdsC6 0).1 = some true ∧
    (track_to_target cfgW 1 rdsC6 0).2.1 = [1/10] ∧
    ((1/200 : ℚ) > (1/250) * (105/100)) := by
  refine ⟨by with_unfolding_all decide, by with_unfolding_all decide,
    by with_unfolding_all decide⟩

/-- C1 (amended): in a `run_once` invocation that performs tracking
(the reading is above coef_max, a direction is found, and
`track_to_target` is called and returns), the controller state at the
end of the invocation is Tracking, not Idle: `run_once` never resets
`self.state` after `track_to_target` returns. -/
theorem C1_tracking_ends_in_tracking_state (cfg : RFQConfig)
    (s : TunerState) (rds : ℕ → Option ℚ) (c : ℚ) (d : ℤ) (ms : List ℚ)
    (j : ℕ) (b : Bool) (ms2 rs : List ℚ) (nx : ℕ) (h0 : rds 0 = some c)
    (hhi : c > cfg.coef_max)
    (hfd : find_direction cfg rds 1 = (some d, ms, j)) (hd : d ≠ 0)
    (htr : track_to_target cfg d rds j = (some b, ms2, rs, nx)) :
    run_once cfg s rds = (.tracking, ms ++ ms2, false) := by
  have hnb : ¬ (cfg.coef_min ≤ c ∧ c ≤ cfg.coef_max) := by
    rintro ⟨_, hb⟩
    exact absurd hhi (not_lt.2 hb)
  simp [run_once, h0, hnb, hhi, hfd, hd, htr]

/-- C1 witness: reading 0.08 out of band, positive direction found,
tracking converges, and the invocation ends in state Tracking. -/
theorem C1_witness : run_once cfgW .idle rdsW1 = (.tracking, [1/10, 1/10], false) :=
  C1_tracking_ends_in_tracking_state cfgW .idle rdsW1 (2/25) 1 [1/10] 3
    true [1/10] [9/1000] 5 rfl (by with_unfolding_all decide)
    (by with_unfolding_all decide) (by with_unfolding_all decide)
    (by with_unfolding_all decide)

/-- C1 counterexample: a concrete cycle whose tracking call returns
converged still ends with state Tracking, not Idle, refuting the
claimed return to Idle at the end of the invocation. -/
theorem C1_counterexample :
    track_to_target cfgW 1 rdsW1 3 = (some true, [1/10], [9/1000], 5) ∧
    run_once cfgW .idle rdsW1 = (.tracking, [1/10, 1/10], false) ∧
    TunerState.tracking ≠ TunerState.idle := by
  refine ⟨by with_unfolding_all decide, by with_unfolding_all decide,
    by with_unfolding_all decide⟩

/-- C5 (amended): `track_to_target` always terminates, issuing at most
max_steps + 1 = 101 actuator moves (the possible single back-off move
can exceed the 100-step bound by one); it returns converged exactly
when some reading taken during the loop is at most coef_min, and in
that case the move count equals the count of readings taken, so no move
occurs after the move that produced the converging reading. -/
theorem C5_track_bound_and_convergence (cfg : RFQConfig) (dir : ℤ)
    (rds : ℕ → Option ℚ) (i : ℕ) :
    (track_to_target cfg dir rds i).2.1.length ≤ 101 ∧
    ((track_to_target cfg dir rds i).1 = some true ↔
      ∃ r ∈ (track_to_target cfg dir rds i).2.2.1, r ≤ cfg.coef_min) ∧
    ((track_to_target cfg dir rds i).1 = some true →
      (track_to_target cfg dir rds i).2.1.length =
        (track_to_target cfg dir rds i).2.2.1.length) := by
  rcases hr : rds i with _ | prev
  · simp [track_to_target, hr]
  · have h := trackAux_spec cfg dir rds 100 prev (i + 1)
    simpa [track_to_target, hr] using h

/-- C5 witness: the bound and the convergence characterisation at a
concrete converging run. -/
theorem C5_witness :
    (track_to_target cfgW 1 rdsW1 3).2.1.length ≤ 101 ∧
    ((track_to_target cfgW 1 rdsW1 3).1 = some true ↔
      ∃ r ∈ (track_to_target cfgW 1 rdsW1 3).2.2.1, r ≤ cfgW.coef_min) ∧
    ((track_to_target cfgW 1 rdsW1 3).1 = some true →
      (track_to_target cfgW 1 rdsW1 3).2.1.length =
        (track_to_target cfgW 1 rdsW1 3).2.2.1.length) :=
  C5_track_bound_and_convergence cfgW 1 rdsW1 3

/-- C5 counterexample: 99 steady readings followed by an overshooting
reading on the 100th permitted step make the loop issue 100 forward
moves plus the corrective back-off: 101 actuator moves, exceeding the
claimed bound of max_steps = 100. -/
theorem C5_counterexample :
    (track_to_target cfgC5 1 rdsC5 0).2.1.length = 101 ∧
    ¬ (track_to_target cfgC5 1 rdsC5 0).2.1.length ≤ 100 := by
  refine ⟨by with_unfolding_all decide, by with_unfolding_all decide⟩

/-- C8: while every cycle reads a coefficient inside
[coef_min, coef_max], the control loop issues no actuator move, raises
nothing, and (after at least one cycle) sits in state Idle, whatever
state it started from: repeated in-band `run_once` calls accumulate no
actuation side effects. -/
theorem C8_in_band_idempotent (cfg : RFQConfig) :
    ∀ (n : ℕ) (s : TunerState) (rds : ℕ → ℕ → Option ℚ),
      (∀ j, ∃ c, rds j 0 = some c ∧ cfg.coef_min ≤ c ∧ c ≤ cfg.coef_max) →
      (run_continuous cfg n s rds).2.1 = [] ∧
      (run_continuous cfg n s rds).2.2 = false ∧
      (0 < n → (run_continuous cfg n s rds).1 = .idle) := by
  intro n
  induction n with
  | zero =>
    intro s rds _
    simp [run_continuous]
  | succ m ih =>
    intro s rds h
    obtain ⟨c, hc0, hc1, hc2⟩ := h 0
    have hone := run_once_in_band cfg s (rds 0) c hc0 hc1 hc2
    obtain ⟨il, ir, ist⟩ := ih .idle (fun j => rds (j + 1)) (fun j => h (j + 1))
    refine ⟨?_, ?_, ?_⟩
    · simp [run_continuous, hone, il]
    · simp [run_continuous, hone, ir]
    · intro _
      rcases Nat.eq_zero_or_pos m with hm | hm
      · subst hm
        simp [run_continuous, hone]
      · simp [run_continuous, hone, ist hm]

/-- C8 witness: two cycles reading 0.04 from state Tracking issue no
moves and end in Idle. -/
theorem C8_witness :
    (run_continuous cfgW 2 .tracking rdsIn).2.1 = [] ∧
    (run_continuous cfgW 2 .tracking rdsIn).2.2 = false ∧
    (0 < 2 → (run_continuous cfgW 2 .tracking rdsIn).1 = .idle) :=
  C8_in_band_idempotent cfgW 2 .tracking rdsIn
    (fun _ => ⟨1/25, rfl, by with_unfolding_all decide,
      by with_unfolding_all decide⟩)

end RFQTuner
